import Mathlib

/-!
Verification of the gateway process lifecycle manager of the
moltbot-sandbox worker (`src/gateway/process.ts`, re-exported from
`src/gateway/index.ts`) and of the initialization stub
(`src/gateway/init.ts`).

The sandbox runtime (Cloudflare Sandbox) is an external collaborator: we
model one invocation of the manager against a runtime oracle recording the
outcome of each external call (process listing, spawn, port readiness,
log retrieval), and the manager's observable effects (kills, spawns) as an
event trace.
-/

/-- Status of an external process as reported by the sandbox runtime:
`starting | running | completed | failed` (terminal: `completed`, `failed`). -/
inductive ProcStatus where
  | starting
  | running
  | completed
  | failed
deriving DecidableEq

/-- Captured output streams of a process, as returned by `getLogs`. -/
structure ProcLogs where
  stdout : String
  stderr : String
deriving DecidableEq

/-- A process record owned by the sandbox runtime: opaque id (unique per
spawn), the invoking command line (used only for classification), the
status, and the captured logs (`none` when log retrieval fails). -/
structure SandboxProcess where
  id : Nat
  command : String
  status : ProcStatus
  logs : Option ProcLogs
deriving DecidableEq

/-- Boolean check that the character list `pat` is an initial segment of `s`. -/
def leadsWith : List Char → List Char → Bool
  | [], _ => true
  | _ :: _, [] => false
  | p :: ps, c :: cs => p == c && leadsWith ps cs

/-- Boolean scan for `pat` occurring contiguously anywhere in `s`
(the semantics of JavaScript `String.prototype.includes`). -/
def scanHasSub (pat : List Char) : List Char → Bool
  | [] => leadsWith pat []
  | c :: t => leadsWith pat (c :: t) || scanHasSub pat t

/-- `command.includes(pat)` of the source, on Lean strings. -/
def containsSegment (s pat : String) : Bool :=
  scanHasSub pat.data s.data

/-- Specification-level statement that `pat` occurs contiguously in `s`. -/
def hasSegment (s pat : String) : Prop :=
  ∃ a b : String, s = a ++ pat ++ b

theorem leadsWith_iff (p s : List Char) :
    leadsWith p s = true ↔ ∃ b, s = p ++ b := by
  induction p generalizing s with
  | nil => simp [leadsWith]
  | cons x xs ih =>
    cases s with
    | nil => simp [leadsWith]
    | cons c cs =>
      simp only [leadsWith, Bool.and_eq_true, beq_iff_eq, ih]
      constructor
      · rintro ⟨hx, b, hb⟩
        exact ⟨b, by simp [hx, hb]⟩
      · rintro ⟨b, hb⟩
        simp only [List.cons_append, List.cons.injEq] at hb
        exact ⟨hb.1.symm, b, hb.2⟩

theorem scanHasSub_iff (pat s : List Char) :
    scanHasSub pat s = true ↔ ∃ a b, s = a ++ pat ++ b := by
  induction s with
  | nil =>
    simp only [scanHasSub, leadsWith_iff]
    constructor
    · rintro ⟨b, hb⟩
      exact ⟨[], b, hb⟩
    · rintro ⟨a, b, hab⟩
      have h0 : a = [] ∧ pat = [] ∧ b = [] := by
        simpa [List.append_eq_nil] using hab.symm
      exact ⟨[], by simp [h0.2.1]⟩
  | cons c t ih =>
    simp only [scanHasSub, Bool.or_eq_true, leadsWith_iff, ih]
    constructor
    · rintro (⟨b, hb⟩ | ⟨a, b, hab⟩)
      · exact ⟨[], b, by simp [hb]⟩
      · exact ⟨c :: a, b, by simp [hab]⟩
    · rintro ⟨a, b, hab⟩
      cases a with
      | nil =>
        exact Or.inl ⟨b, by simpa using hab⟩
      | cons x xs =>
        simp only [List.cons_append, List.cons.injEq] at hab
        exact Or.inr ⟨xs, b, hab.2⟩

theorem string_eq_of_data (a b : String) (h : a.data = b.data) : a = b := by
  cases a
  cases b
  exact congrArg String.mk (by simpa using h)

theorem containsSegment_iff (s pat : String) :
    containsSegment s pat = true ↔ hasSegment s pat := by
  rw [containsSegment, scanHasSub_iff, hasSegment]
  constructor
  · rintro ⟨a, b, hab⟩
    refine ⟨⟨a⟩, ⟨b⟩, string_eq_of_data _ _ ?_⟩
    simpa [String.data_append] using hab
  · rintro ⟨a, b, hab⟩
    exact ⟨a.data, b.data, by simp [hab, String.data_append]⟩

/-- Modelled from the spec: the source file of the lifecycle manager
(re-exported from src/gateway/index.ts as src/gateway/process.ts) is not
present under src/. The startup script invocation marker of the gateway
command line (the container startup script named in the repository docs). -/
def startScriptMarker : String := "start-moltbot.sh"

/-- Modelled from the spec: the gateway subcommand of the CLI, the second
way a command line can denote the gateway process. -/
def gatewaySubcommandMarker : String := "clawdbot gateway"

/-- Modelled from the spec: CLI-only device-listing subcommand, an
exclusion marker for gateway classification. -/
def devicesExclusionMarker : String := "clawdbot devices"

/-- Modelled from the spec: CLI-only version-check subcommand, an
exclusion marker for gateway classification. -/
def versionExclusionMarker : String := "--version"

/-- Modelled from the spec: a command string denotes the gateway process
iff it contains the startup script invocation or the gateway subcommand of
the CLI, and does not contain a CLI-only subcommand (device-listing or
version-check). -/
def isGatewayCommand (command : String) : Bool :=
  (containsSegment command startScriptMarker
      || containsSegment command gatewaySubcommandMarker)
    && !containsSegment command devicesExclusionMarker
    && !containsSegment command versionExclusionMarker

/-- A process is in a non-terminal (active) state: starting or running. -/
def isActiveStatus (s : ProcStatus) : Bool :=
  s == ProcStatus.starting || s == ProcStatus.running

/-- Modelled from the spec: findExistingMoltbotProcess of the missing
src/gateway/process.ts. The argument is the outcome of the runtime's
listProcesses call (none when the listing call rejects). Lists all
processes, filters by the classification predicate, returns the first one
whose status is starting or running; a listing failure is absorbed and
treated as no process found. -/
def findExistingMoltbotProcess :
    Option (List SandboxProcess) → Option SandboxProcess
  | none => none
  | some ps =>
      (ps.filter (fun p => isGatewayCommand p.command)).find?
        (fun p => isActiveStatus p.status)

/-- Modelled from the spec: getFailedProcessLogs of the missing
src/gateway/process.ts. Scans the listing in reverse order
(last-listed-first) for the most recent entry matching the classification
predicate with status failed and returns its captured logs; returns none
when the listing call rejects, when no such entry exists, or when log
retrieval itself fails (the logs field of the record is none). -/
def getFailedProcessLogs :
    Option (List SandboxProcess) → Option ProcLogs
  | none => none
  | some ps =>
      match ps.reverse.find?
          (fun p => isGatewayCommand p.command
            && p.status == ProcStatus.failed) with
      | none => none
      | some p => p.logs

/-- Modelled from the spec: waitForExistingProcess of the missing
src/gateway/process.ts. The first argument is the outcome of the port
readiness wait on the process (true = the port became ready within the
full timeout). On success returns the process unchanged; on timeout the
stuck process is killed (recorded by the caller as an event) and none is
returned, signaling the caller to start a replacement. -/
def waitForExistingProcess (ready : Bool) (p : SandboxProcess) :
    Option SandboxProcess :=
  if ready then some p else none

/-- Renders one output stream for the diagnostic error: an empty stream
becomes the explicit placeholder so absence of output is distinguishable
from retrieval failure. -/
def renderStream (s : String) : String :=
  if s = "" then "(empty)" else s

/-- Modelled from the spec: diagnostic error construction
(buildStartupError) of the missing src/gateway/process.ts. Given the
message of the original low-level exception and the result of the
failed-process log lookup: when a log bundle resolved and stdout or stderr
is non-empty, the message embeds both streams verbatim (empty streams
rendered as the placeholder); otherwise it falls back to embedding the
original exception's message. -/
def buildStartupError (origMsg : String) (logs : Option ProcLogs) :
    String :=
  match logs with
  | some l =>
      if l.stdout != "" || l.stderr != "" then
        "Moltbot gateway failed to start. stdout: "
          ++ renderStream l.stdout
          ++ " stderr: " ++ renderStream l.stderr
      else
        "Moltbot gateway failed to start: " ++ origMsg
  | none => "Moltbot gateway failed to start: " ++ origMsg

/-- Observable side effects of one ensureMoltbotGateway invocation on the
sandbox runtime: kill requests and successful spawns, in order. -/
inductive GatewayEvent where
  | killedProcess (id : Nat)
  | spawnedProcess (id : Nat)
deriving DecidableEq

/-- Oracle for the external sandbox runtime over one invocation of the
manager: the outcome of each external call the manager may make.
listing is the listProcesses outcome (none = the call rejects);
existingReady is the port readiness outcome for a pre-existing process;
spawnResult is the startProcess outcome (error = the spawn call rejects,
carrying its message); newReady is the port readiness outcome for the
newly started process (error = the underlying exception's message);
diagnosisListing is the listProcesses outcome at diagnosis time (the
process table is re-listed after the failure). -/
structure SandboxRuntime where
  listing : Option (List SandboxProcess)
  existingReady : Bool
  spawnResult : Except String SandboxProcess
  newReady : Except String Unit
  diagnosisListing : Option (List SandboxProcess)

/-- Modelled from the spec: the START_NEW - AWAIT_READY tail of
ensureMoltbotGateway (steps 4-6 of the missing src/gateway/process.ts
orchestration). A spawn rejection propagates immediately as a fatal error
with no retry; on readiness success the new process is returned; on
readiness failure the diagnostic error is constructed from the most recent
failed-gateway log bundle, falling back to the underlying exception. The
event list accumulates the kill recorded by the caller. -/
def startFreshGateway (rt : SandboxRuntime) (evs : List GatewayEvent) :
    Except String SandboxProcess × List GatewayEvent :=
  match rt.spawnResult with
  | Except.error e =>
      (Except.error ("Failed to start Moltbot gateway: " ++ e), evs)
  | Except.ok np =>
      match rt.newReady with
      | Except.ok _ =>
          (Except.ok np, evs ++ [GatewayEvent.spawnedProcess np.id])
      | Except.error e =>
          (Except.error
              (buildStartupError e (getFailedProcessLogs rt.diagnosisListing)),
            evs ++ [GatewayEvent.spawnedProcess np.id])

/-- Modelled from the spec: ensureMoltbotGateway of the missing
src/gateway/process.ts, the top-level orchestration
MOUNT_STORAGE - CHECK_EXISTING - (REUSE or RESTART) - START_NEW -
AWAIT_READY. Storage mounting is best-effort and never affects the
result, so it is not part of the oracle. An existing non-terminal gateway
process that becomes ready is returned as-is with no events; one whose
readiness wait times out is killed and a fresh start follows. -/
def ensureMoltbotGateway (rt : SandboxRuntime) :
    Except String SandboxProcess × List GatewayEvent :=
  match findExistingMoltbotProcess rt.listing with
  | some p =>
      match waitForExistingProcess rt.existingReady p with
      | some q => (Except.ok q, [])
      | none => startFreshGateway rt [GatewayEvent.killedProcess p.id]
  | none => startFreshGateway rt []

/-- The ids of the processes spawned during an invocation, read off the
event trace. -/
def spawnedIds (evs : List GatewayEvent) : List Nat :=
  evs.filterMap (fun ev =>
    match ev with
    | GatewayEvent.spawnedProcess i => some i
    | GatewayEvent.killedProcess _ => none)

/-- The sandbox handle passed to ensureInitCompleted; its content is never
inspected by the stub (src/gateway/init.ts takes it as an unused
parameter), so an opaque identifier suffices. -/
structure Sandbox where
  id : Nat
deriving DecidableEq

/-- Result shape of src/gateway/init.ts: success is required, skipped and
error are optional fields. -/
structure InitResult where
  success : Bool
  skipped : Option Bool
  error : Option String
deriving DecidableEq

/-- ensureInitCompleted of src/gateway/init.ts: a stub that ignores its
sandbox argument and reports success with skipped set and no error. -/
def ensureInitCompleted (_sandbox : Sandbox) : InitResult :=
  { success := true, skipped := some true, error := none }

theorem hasSegment_suffix (a pat : String) : hasSegment (a ++ pat) pat :=
  ⟨a, "", by rw [String.append_empty]⟩

theorem hasSegment_parts (a pat b : String) : hasSegment (a ++ pat ++ b) pat :=
  ⟨a, b, rfl⟩

theorem hasSegment_parts4 (a pat b c : String) :
    hasSegment (a ++ pat ++ b ++ c) pat :=
  ⟨a, b ++ c, by rw [String.append_assoc]⟩

theorem isGatewayCommand_iff_hasSegment (cmd : String) :
    isGatewayCommand cmd = true ↔
      ((hasSegment cmd startScriptMarker
          ∨ hasSegment cmd gatewaySubcommandMarker)
        ∧ ¬hasSegment cmd devicesExclusionMarker
        ∧ ¬hasSegment cmd versionExclusionMarker) := by
  simp [isGatewayCommand, ← containsSegment_iff, and_assoc]

theorem reverse_find?_eq_filter_getLast? {α : Type} (f : α → Bool)
    (ps : List α) : ps.reverse.find? f = (ps.filter f).getLast? := by
  rw [← List.filter_head?, List.filter_reverse, List.head?_reverse]

/-- A concrete gateway process started via the startup script, still
starting. -/
def gatewayStartingProc : SandboxProcess :=
  { id := 1
  , command := "bash /container/start-moltbot.sh"
  , status := ProcStatus.starting
  , logs := none }

/-- A concrete gateway process launched through the CLI gateway
subcommand, running. -/
def gatewayRunningProc : SandboxProcess :=
  { id := 2
  , command := "clawdbot gateway --allow-unconfigured"
  , status := ProcStatus.running
  , logs := none }

/-- A concrete short-lived administrative CLI invocation sharing the
binary name: matched by the exclusion marker, never a gateway. -/
def cliDevicesProc : SandboxProcess :=
  { id := 3
  , command := "clawdbot devices list --url ws://localhost:18789"
  , status := ProcStatus.running
  , logs := none }

/-- A concrete freshly spawned gateway process. -/
def newGatewayProc : SandboxProcess :=
  { id := 7
  , command := "bash /container/start-moltbot.sh"
  , status := ProcStatus.starting
  , logs := none }

/-- A concrete failed gateway process with captured logs. -/
def failedGatewayProc : SandboxProcess :=
  { id := 4
  , command := "bash /container/start-moltbot.sh"
  , status := ProcStatus.failed
  , logs := some { stdout := "Starting...", stderr := "Error: X" } }

/-- C6: a command string is classified as a gateway command iff it
contains the startup script invocation or the gateway subcommand of the
CLI and does not contain a CLI-only exclusion subcommand; hence any
command containing the gateway subcommand together with the device-listing
exclusion is never classified as a gateway process. -/
theorem isGatewayCommand_characterization :
    (∀ cmd : String,
        isGatewayCommand cmd = true ↔
          ((hasSegment cmd startScriptMarker
              ∨ hasSegment cmd gatewaySubcommandMarker)
            ∧ ¬hasSegment cmd devicesExclusionMarker
            ∧ ¬hasSegment cmd versionExclusionMarker))
    ∧ (∀ cmd : String, hasSegment cmd gatewaySubcommandMarker →
        hasSegment cmd devicesExclusionMarker →
        isGatewayCommand cmd = false) := by
  refine ⟨fun cmd => isGatewayCommand_iff_hasSegment cmd, fun cmd h1 h2 => ?_⟩
  cases hb : isGatewayCommand cmd with
  | false => rfl
  | true => exact absurd h2 ((isGatewayCommand_iff_hasSegment cmd).mp hb).2.1

/-- Witness for C6 at a concrete command line containing both the gateway
subcommand and the device-listing exclusion. -/
theorem isGatewayCommand_characterization_witness :
    isGatewayCommand "clawdbot gateway run clawdbot devices list" = false :=
  isGatewayCommand_characterization.2 "clawdbot gateway run clawdbot devices list"
    ⟨"", " run clawdbot devices list", by decide⟩
    ⟨"clawdbot gateway run ", " list", by decide⟩

/-- C8: when the listProcesses call rejects, both lookup functions absorb
the failure and resolve to none rather than raising. -/
theorem lookups_absorb_listing_failure :
    findExistingMoltbotProcess none = none
      ∧ getFailedProcessLogs none = none :=
  ⟨rfl, rfl⟩

/-- C10: ensureInitCompleted reports success with skipped set and no error
field, and its result is independent of the sandbox argument. -/
theorem ensureInitCompleted_const :
    (∀ s : Sandbox,
        ensureInitCompleted s
          = { success := true, skipped := some true, error := none })
    ∧ (∀ s t : Sandbox, ensureInitCompleted s = ensureInitCompleted t) :=
  ⟨fun _ => rfl, fun _ _ => rfl⟩

/-- Counterexample to C5 as stated: in a listing whose unique entry
matching the predicate with status running is preceded by a matching entry
with status starting, findExistingMoltbotProcess returns the starting
entry, not the running one. -/
theorem findExistingMoltbotProcess_running_counterexample :
    ([gatewayStartingProc, gatewayRunningProc].countP
        (fun p => isGatewayCommand p.command
          && p.status == ProcStatus.running)) = 1
      ∧ findExistingMoltbotProcess
          (some [gatewayStartingProc, gatewayRunningProc])
          = some gatewayStartingProc
      ∧ findExistingMoltbotProcess
          (some [gatewayStartingProc, gatewayRunningProc])
          ≠ some gatewayRunningProc := by
  refine ⟨by decide, by decide, by decide⟩

/-- C5 amended: when no entry of the listing matches the classification
predicate the lookup returns none; and when the listing splits as
l1 ++ p :: l2 where p matches the predicate with status running and no
entry of l1 matching the predicate is in an active (starting or running)
state, the lookup returns p — in particular this covers every listing
whose unique matching active entry is the running process p. -/
theorem findExistingMoltbotProcess_amended
    (ps l1 l2 : List SandboxProcess) (p : SandboxProcess) :
    ((∀ q ∈ ps, isGatewayCommand q.command = false) →
        findExistingMoltbotProcess (some ps) = none)
    ∧ (isGatewayCommand p.command = true →
        p.status = ProcStatus.running →
        (∀ q ∈ l1, isGatewayCommand q.command = true →
          isActiveStatus q.status = false) →
        findExistingMoltbotProcess (some (l1 ++ p :: l2)) = some p) := by
  constructor
  · intro h
    have hnil : ps.filter (fun q => isGatewayCommand q.command) = [] :=
      List.filter_eq_nil_iff.mpr (by simpa using h)
    simp [findExistingMoltbotProcess, hnil]
  · intro hp hrun hskip
    have hfil :
        (l1 ++ p :: l2).filter (fun q => isGatewayCommand q.command)
          = l1.filter (fun q => isGatewayCommand q.command)
            ++ p :: l2.filter (fun q => isGatewayCommand q.command) := by
      simp [List.filter_append, List.filter_cons, hp]
    have hnone :
        (l1.filter (fun q => isGatewayCommand q.command)).find?
            (fun q => isActiveStatus q.status) = none := by
      rw [List.find?_eq_none]
      intro q hq
      have hmem := List.mem_filter.mp hq
      simp [hskip q hmem.1 hmem.2]
    rw [findExistingMoltbotProcess, hfil, List.find?_append, hnone]
    simp [List.find?_cons_of_pos, isActiveStatus, hrun]

/-- Witness for the amended C5: a listing whose only matching active entry
is a running gateway process, preceded by a non-matching CLI entry. -/
theorem findExistingMoltbotProcess_amended_witness :
    findExistingMoltbotProcess (some [cliDevicesProc, gatewayRunningProc])
      = some gatewayRunningProc :=
  (findExistingMoltbotProcess_amended [] [cliDevicesProc] []
      gatewayRunningProc).2 (by decide) (by decide) (by decide)

/-- C7: for every successfully obtained listing, getFailedProcessLogs
returns the captured logs of the last entry in listing order matching the
classification predicate with status failed — none when no such entry
exists or when that entry's log retrieval failed. -/
theorem getFailedProcessLogs_last_in_order (ps : List SandboxProcess) :
    getFailedProcessLogs (some ps)
      = ((ps.filter (fun p => isGatewayCommand p.command
            && p.status == ProcStatus.failed)).getLast?).bind
          (fun p => p.logs) := by
  rw [getFailedProcessLogs, reverse_find?_eq_filter_getLast?]
  cases (ps.filter (fun p => isGatewayCommand p.command
      && p.status == ProcStatus.failed)).getLast? with
  | none => rfl
  | some p => rfl

/-- Witness for C7: among two failed gateway entries the logs of the
later-listed one are returned. -/
theorem getFailedProcessLogs_last_in_order_witness :
    getFailedProcessLogs
        (some [{ failedGatewayProc with
                  id := 9
                , logs := some { stdout := "old", stderr := "old" } }
              , cliDevicesProc, failedGatewayProc])
      = some { stdout := "Starting...", stderr := "Error: X" } := by
  have h := getFailedProcessLogs_last_in_order
    [{ failedGatewayProc with
        id := 9, logs := some { stdout := "old", stderr := "old" } }
      , cliDevicesProc, failedGatewayProc]
  rw [h]
  decide

/-- C1: whenever the runtime reports no existing gateway process (in
particular for an empty process list), a successful spawn followed by a
successful readiness wait makes ensureMoltbotGateway return the newly
started process, with exactly one spawn event, no kill, and no error. -/
theorem ensureMoltbotGateway_fresh_start (rt : SandboxRuntime)
    (np : SandboxProcess)
    (hfind : findExistingMoltbotProcess rt.listing = none)
    (hspawn : rt.spawnResult = Except.ok np)
    (hready : rt.newReady = Except.ok ()) :
    ensureMoltbotGateway rt
      = (Except.ok np, [GatewayEvent.spawnedProcess np.id]) := by
  simp [ensureMoltbotGateway, startFreshGateway, hfind, hspawn, hready]

/-- Runtime oracle for scenario A: empty process list, spawn succeeds,
readiness wait on the new process succeeds. -/
def freshRuntime : SandboxRuntime :=
  { listing := some []
  , existingReady := false
  , spawnResult := Except.ok newGatewayProc
  , newReady := Except.ok ()
  , diagnosisListing := some [] }

/-- Witness for C1 on the empty process list. -/
theorem ensureMoltbotGateway_fresh_start_witness :
    ensureMoltbotGateway freshRuntime
      = (Except.ok newGatewayProc, [GatewayEvent.spawnedProcess 7]) :=
  ensureMoltbotGateway_fresh_start freshRuntime newGatewayProc rfl rfl rfl

/-- C2: when an existing running gateway process is found but its
readiness wait times out, ensureMoltbotGateway kills it, spawns a new
process, and — the readiness wait on the new process succeeding — returns
the new process; the timeout on the pre-existing process is not propagated
as an error. -/
theorem ensureMoltbotGateway_restart (rt : SandboxRuntime)
    (p np : SandboxProcess)
    (hfind : findExistingMoltbotProcess rt.listing = some p)
    (_hrun : p.status = ProcStatus.running)
    (hstuck : rt.existingReady = false)
    (hspawn : rt.spawnResult = Except.ok np)
    (hready : rt.newReady = Except.ok ()) :
    ensureMoltbotGateway rt
      = (Except.ok np,
          [GatewayEvent.killedProcess p.id,
            GatewayEvent.spawnedProcess np.id]) := by
  simp [ensureMoltbotGateway, startFreshGateway, waitForExistingProcess,
    hfind, hstuck, hspawn, hready]

/-- Runtime oracle for scenario B: one running gateway process whose
readiness wait times out, then a successful fresh start. -/
def restartRuntime : SandboxRuntime :=
  { listing := some [gatewayRunningProc]
  , existingReady := false
  , spawnResult := Except.ok newGatewayProc
  , newReady := Except.ok ()
  , diagnosisListing := some [] }

/-- Witness for C2: the stuck running process with id 2 is killed and the
new process with id 7 is returned. -/
theorem ensureMoltbotGateway_restart_witness :
    ensureMoltbotGateway restartRuntime
      = (Except.ok newGatewayProc,
          [GatewayEvent.killedProcess 2, GatewayEvent.spawnedProcess 7]) :=
  ensureMoltbotGateway_restart restartRuntime gatewayRunningProc
    newGatewayProc (by decide) rfl rfl rfl rfl

/-- C4: when the startProcess call itself rejects, ensureMoltbotGateway
propagates the failure immediately as a fatal error and spawns no process
within the invocation (no retry). -/
theorem ensureMoltbotGateway_spawn_rejection (rt : SandboxRuntime)
    (e : String)
    (hpath : findExistingMoltbotProcess rt.listing = none
      ∨ rt.existingReady = false)
    (hspawn : rt.spawnResult = Except.error e) :
    (ensureMoltbotGateway rt).1
        = Except.error ("Failed to start Moltbot gateway: " ++ e)
      ∧ spawnedIds (ensureMoltbotGateway rt).2 = [] := by
  cases hfind : findExistingMoltbotProcess rt.listing with
  | none =>
      simp [ensureMoltbotGateway, startFreshGateway, spawnedIds,
        hfind, hspawn]
  | some p =>
      have hstuck : rt.existingReady = false := by
        cases hpath with
        | inl h => rw [h] at hfind; exact absurd hfind (by simp)
        | inr h => exact h
      simp [ensureMoltbotGateway, startFreshGateway, waitForExistingProcess,
        spawnedIds, hfind, hstuck, hspawn]

/-- Runtime oracle in which the spawn call itself rejects. -/
def spawnRejectRuntime : SandboxRuntime :=
  { listing := some []
  , existingReady := false
  , spawnResult := Except.error "container failed to start process"
  , newReady := Except.ok ()
  , diagnosisListing := some [] }

/-- Witness for C4: the spawn rejection surfaces as the fatal error and
the event trace records no spawned process. -/
theorem ensureMoltbotGateway_spawn_rejection_witness :
    (ensureMoltbotGateway spawnRejectRuntime).1
        = Except.error
            ("Failed to start Moltbot gateway: "
              ++ "container failed to start process")
      ∧ spawnedIds (ensureMoltbotGateway spawnRejectRuntime).2 = [] :=
  ensureMoltbotGateway_spawn_rejection spawnRejectRuntime
    "container failed to start process" (Or.inl rfl) rfl

/-- C9: when the readiness wait on a pre-existing gateway process
succeeds, waitForExistingProcess returns that very process unchanged, and
ensureMoltbotGateway returns it with an empty event trace: no kill and no
spawn. -/
theorem ensureMoltbotGateway_reuse (rt : SandboxRuntime)
    (p : SandboxProcess)
    (hfind : findExistingMoltbotProcess rt.listing = some p)
    (hready : rt.existingReady = true) :
    waitForExistingProcess rt.existingReady p = some p
      ∧ ensureMoltbotGateway rt = (Except.ok p, []) := by
  constructor
  · simp [waitForExistingProcess, hready]
  · simp [ensureMoltbotGateway, waitForExistingProcess, hfind, hready]

/-- Runtime oracle with a ready pre-existing running gateway process. -/
def reuseRuntime : SandboxRuntime :=
  { listing := some [gatewayRunningProc]
  , existingReady := true
  , spawnResult := Except.error "never spawned"
  , newReady := Except.error "never awaited"
  , diagnosisListing := none }

/-- Witness for C9: the existing running process is returned unchanged
with no events. -/
theorem ensureMoltbotGateway_reuse_witness :
    waitForExistingProcess reuseRuntime.existingReady gatewayRunningProc
        = some gatewayRunningProc
      ∧ ensureMoltbotGateway reuseRuntime
        = (Except.ok gatewayRunningProc, []) :=
  ensureMoltbotGateway_reuse reuseRuntime gatewayRunningProc (by decide) rfl

/-- C3: when the readiness wait on a freshly started process fails, the
error carries the diagnostic message; whenever the failed-process log
lookup resolves a bundle with a non-empty stream, that message embeds both
streams verbatim with empty streams rendered as the placeholder, and when
no bundle resolves (or the bundle is entirely empty) it embeds the
original underlying exception's message. -/
theorem ensureMoltbotGateway_startup_diagnostics (rt : SandboxRuntime)
    (np : SandboxProcess) (e : String)
    (hfind : findExistingMoltbotProcess rt.listing = none)
    (hspawn : rt.spawnResult = Except.ok np)
    (hready : rt.newReady = Except.error e) :
    (ensureMoltbotGateway rt).1
        = Except.error
            (buildStartupError e (getFailedProcessLogs rt.diagnosisListing))
      ∧ (∀ l, getFailedProcessLogs rt.diagnosisListing = some l →
          (l.stdout ≠ "" ∨ l.stderr ≠ "") →
          hasSegment (buildStartupError e (some l)) (renderStream l.stdout)
            ∧ hasSegment (buildStartupError e (some l))
                (renderStream l.stderr))
      ∧ (getFailedProcessLogs rt.diagnosisListing = none →
          hasSegment (buildStartupError e none) e)
      ∧ (∀ l, getFailedProcessLogs rt.diagnosisListing = some l →
          l.stdout = "" → l.stderr = "" →
          hasSegment (buildStartupError e (some l)) e) := by
  refine ⟨?_, ?_, ?_, ?_⟩
  · simp [ensureMoltbotGateway, startFreshGateway, hfind, hspawn, hready]
  · intro l _ hne
    have hb : (l.stdout != "" || l.stderr != "") = true := by
      rcases hne with h | h <;> simp [h]
    rw [buildStartupError, if_pos hb]
    exact ⟨hasSegment_parts4 "Moltbot gateway failed to start. stdout: "
        (renderStream l.stdout) " stderr: " (renderStream l.stderr),
      hasSegment_suffix
        ("Moltbot gateway failed to start. stdout: "
          ++ renderStream l.stdout ++ " stderr: ")
        (renderStream l.stderr)⟩
  · intro _
    exact hasSegment_suffix "Moltbot gateway failed to start: " e
  · intro l _ h1 h2
    have hb : ¬((l.stdout != "" || l.stderr != "") = true) := by
      simp [h1, h2]
    rw [buildStartupError, if_neg hb]
    exact hasSegment_suffix "Moltbot gateway failed to start: " e

/-- Runtime oracle for scenario C: fresh spawn succeeds, readiness wait
fails, and the diagnosis listing resolves a failed gateway process with
captured logs. -/
def diagRuntime : SandboxRuntime :=
  { listing := some []
  , existingReady := false
  , spawnResult := Except.ok newGatewayProc
  , newReady := Except.error "waitForPort timed out"
  , diagnosisListing := some [failedGatewayProc] }

/-- Runtime oracle for scenario D: fresh spawn succeeds, readiness wait
fails, and no failed-process logs are retrievable. -/
def fallbackRuntime : SandboxRuntime :=
  { listing := some []
  , existingReady := false
  , spawnResult := Except.ok newGatewayProc
  , newReady := Except.error "waitForPort timed out"
  , diagnosisListing := none }

/-- Witness for C3 on scenarios C and D: with logs stdout Starting... and
stderr Error: X the thrown message contains the literal substring X, and
with no resolvable logs it contains the underlying exception's message. -/
theorem ensureMoltbotGateway_startup_diagnostics_witness :
    (ensureMoltbotGateway diagRuntime).1
        = Except.error
            "Moltbot gateway failed to start. stdout: Starting... stderr: Error: X"
      ∧ hasSegment
          "Moltbot gateway failed to start. stdout: Starting... stderr: Error: X"
          "X"
      ∧ (ensureMoltbotGateway fallbackRuntime).1
        = Except.error
            "Moltbot gateway failed to start: waitForPort timed out"
      ∧ hasSegment
          "Moltbot gateway failed to start: waitForPort timed out"
          "waitForPort timed out" := by
  have hC := ensureMoltbotGateway_startup_diagnostics diagRuntime
    newGatewayProc "waitForPort timed out" rfl rfl rfl
  have hD := ensureMoltbotGateway_startup_diagnostics fallbackRuntime
    newGatewayProc "waitForPort timed out" rfl rfl rfl
  refine ⟨hC.1.trans (congrArg Except.error (by decide)),
    ⟨"Moltbot gateway failed to start. stdout: Starting... stderr: Error: ",
      "", by decide⟩,
    hD.1.trans (congrArg Except.error (by decide)),
    ⟨"Moltbot gateway failed to start: ", "", by decide⟩⟩
